import Mathlib

/-!
Verification of the MyVariant.info client core (`tumorboard/api/myvariant.py`)
against its design specification.

The Python module is shallowly embedded: JSON payloads become the `Json`
inductive, Python dictionary/iteration/truthiness semantics become explicit
helper functions, fallible Python code becomes `Except PyExc`, and the
`tenacity` retry decorator becomes an explicit bounded loop.  JSON numbers are
modelled as integers (no claim under verification involves floating-point
arithmetic; the only numeric operations performed by the code are equality
with 0 and stringification).
-/

/-- A JSON-like Python value: the payload shapes flowing through the client. -/
inductive Json where
  | null
  | bool (b : Bool)
  | num (n : Int)
  | str (s : String)
  | arr (elems : List Json)
  | obj (fields : List (String × Json))

mutual

/-- Structural equality of JSON-like values (Python `==` restricted to the
uses in the embedded code: comparing list elements against strings). -/
def Json.beq : Json → Json → Bool
  | .null, .null => true
  | .bool a, .bool b => a == b
  | .num a, .num b => a == b
  | .str a, .str b => a == b
  | .arr a, .arr b => Json.beqList a b
  | .obj a, .obj b => Json.beqObj a b
  | _, _ => false

/-- Elementwise equality of JSON lists. -/
def Json.beqList : List Json → List Json → Bool
  | [], [] => true
  | a :: as, b :: bs => Json.beq a b && Json.beqList as bs
  | _, _ => false

/-- Entrywise equality of JSON objects. -/
def Json.beqObj : List (String × Json) → List (String × Json) → Bool
  | [], [] => true
  | (k₁, v₁) :: as, (k₂, v₂) :: bs => k₁ == k₂ && Json.beq v₁ v₂ && Json.beqObj as bs
  | _, _ => false

end

instance : BEq Json := ⟨Json.beq⟩

/-- Exception kinds raised by the embedded code.  `myVariantAPIError` is the
client's own error class; the rest model the Python / httpx exception types
that the code can raise internally (all `Exception` subclasses). -/
inductive PyExc where
  | myVariantAPIError (msg : String)
  | httpxStatusError (code : Nat) (text : String)
  | httpxTimeout
  | httpxHTTPError (msg : String)
  | attributeError (msg : String)
  | typeError (msg : String)
  | keyError (msg : String)
  | indexError (msg : String)
deriving DecidableEq

/-- Message carried by an exception, as Python's `str(e)` (simplified: the
stored message text). -/
def pyExcStr : PyExc → String
  | .myVariantAPIError m => m
  | .httpxStatusError c t => toString c ++ " " ++ t
  | .httpxTimeout => "timeout"
  | .httpxHTTPError m => m
  | .attributeError m => m
  | .typeError m => m
  | .keyError m => m
  | .indexError m => m

/-- Dictionary lookup (first binding wins; Python dicts have unique keys). -/
def dLookup (kvs : List (String × Json)) (k : String) : Option Json :=
  match kvs with
  | [] => none
  | (k₀, v₀) :: rest => if k₀ == k then some v₀ else dLookup rest k

/-- Python `d.get(k, dflt)` on a dict already known to be a dict. -/
def dGet (kvs : List (String × Json)) (k : String) (dflt : Json) : Json :=
  (dLookup kvs k).getD dflt

/-- Python `d.get(k)` (returns `None` when the key is absent). -/
def dGetN (kvs : List (String × Json)) (k : String) : Json :=
  dGet kvs k Json.null

/-- Python `k in d` for a dict. -/
def hasKey (kvs : List (String × Json)) (k : String) : Bool :=
  (dLookup kvs k).isSome

/-- Python truthiness of a JSON-like value. -/
def pyTruthy : Json → Bool
  | .null => false
  | .bool b => b
  | .num n => n != 0
  | .str s => s != ""
  | .arr l => !l.isEmpty
  | .obj kvs => !kvs.isEmpty

/-- Python `x == 0` for a JSON-like value (`False == 0` is `True` in Python;
no other non-numeric value equals `0`). -/
def pyEqZero : Json → Bool
  | .num n => n == 0
  | .bool b => !b
  | _ => false

/-- Whether the first character list starts with the second. -/
def charsStartWith : List Char → List Char → Bool
  | _, [] => true
  | [], _ :: _ => false
  | c :: cs, d :: ds => c == d && charsStartWith cs ds

/-- Whether the second character list occurs inside the first. -/
def charsContain (hay needle : List Char) : Bool :=
  match hay with
  | [] => needle.isEmpty
  | _ :: rest => charsStartWith hay needle || charsContain rest needle

/-- Python `hay.startswith(needle)` (defined over the character lists so that
it reduces inside the kernel). -/
def strStartsWith (hay needle : String) : Bool :=
  charsStartWith hay.toList needle.toList

/-- Substring test (`needle in hay` for Python strings). -/
def strContains (hay needle : String) : Bool :=
  charsContain hay.toList needle.toList

mutual

/-- Python `repr` of a JSON-like value (string quoting simplified to plain
single quotes; no claim under verification depends on container
stringification). -/
def pyRepr : Json → String
  | .null => "None"
  | .bool true => "True"
  | .bool false => "False"
  | .num n => toString n
  | .str s => "\x27" ++ s ++ "\x27"
  | .arr l => "[" ++ pyReprList l ++ "]"
  | .obj kvs => "\x7b" ++ pyReprObj kvs ++ "\x7d"

/-- Comma-joined `repr`s of list elements. -/
def pyReprList : List Json → String
  | [] => ""
  | [j] => pyRepr j
  | j :: js => pyRepr j ++ ", " ++ pyReprList js

/-- Comma-joined `repr`s of dict entries. -/
def pyReprObj : List (String × Json) → String
  | [] => ""
  | [(k, v)] => "\x27" ++ k ++ "\x27: " ++ pyRepr v
  | (k, v) :: kvs => "\x27" ++ k ++ "\x27: " ++ pyRepr v ++ ", " ++ pyReprObj kvs

end

/-- Python `str` of a JSON-like value. -/
def pyStr : Json → String
  | .str s => s
  | j => pyRepr j

/-- Python `x.get(k, dflt)`: `AttributeError` when `x` is not a dict. -/
def pyGetAttrD (j : Json) (k : String) (dflt : Json) : Except PyExc Json :=
  match j with
  | .obj kvs => .ok (dGet kvs k dflt)
  | _ => .error (.attributeError "object has no attribute get")

/-- Python `x[k]` for a string key: value or `KeyError` on dicts,
`TypeError` otherwise. -/
def pySub (j : Json) (k : String) : Except PyExc Json :=
  match j with
  | .obj kvs =>
      match dLookup kvs k with
      | some v => .ok v
      | none => .error (.keyError k)
  | _ => .error (.typeError "indices must not be str")

/-- Python `k in x`: key membership for dicts, element membership for lists,
substring test for strings, `TypeError` otherwise. -/
def pyIn (k : String) (j : Json) : Except PyExc Bool :=
  match j with
  | .obj kvs => .ok (hasKey kvs k)
  | .arr l => .ok (l.contains (Json.str k))
  | .str s => .ok (strContains s k)
  | _ => .error (.typeError "argument of type is not iterable")

/-- Python `for x in v`: lists yield elements, strings yield one-character
strings, dicts yield their keys, everything else raises `TypeError`. -/
def pyIter : Json → Except PyExc (List Json)
  | .arr l => .ok l
  | .str s => .ok (s.toList.map (fun c => Json.str (String.mk [c])))
  | .obj kvs => .ok (kvs.map (fun kv => Json.str kv.1))
  | _ => .error (.typeError "object is not iterable")

/-- Python `v[0]` on a value known to be truthy. -/
def pyIndex0 : Json → Except PyExc Json
  | .arr (x :: _) => .ok x
  | .arr [] => .error (.indexError "list index out of range")
  | .str s =>
      match s.toList with
      | c :: _ => .ok (.str (String.mk [c]))
      | [] => .error (.indexError "string index out of range")
  | .obj _ => .error (.keyError "0")
  | _ => .error (.typeError "object is not subscriptable")

/-- `items = data if isinstance(data, list) else [data]`: the shared
object-or-list normalization at the top of all three source parsers
(myvariant.py lines 155, 217, 267). -/
def toItems : Json → List Json
  | .arr l => l
  | x => [x]

/-!
## Evidence model

The record types live in `tumorboard/models/evidence.py`, which is not part
of the sources at hand; they are therefore modelled from the spec.  Fields
hold the exact values the parser code stores into them (arbitrary JSON values
where the code passes payload values through unchanged), since the spec marks
every field of the three evidence records as independently optional.
-/

/-- Modelled from the spec: `CIViCEvidence` record of
`tumorboard/models/evidence.py` (missing from the sources) — evidence_type,
evidence_level, evidence_direction, clinical_significance, disease name, list
of drug names, description, source name, rating, all optional. -/
structure CIViCEvidence where
  evidence_type : Json := .null
  evidence_level : Json := .null
  evidence_direction : Json := .null
  clinical_significance : Json := .null
  disease : Json := .null
  drugs : List Json := []
  description : Json := .null
  source : Json := .null
  rating : Json := .null

/-- Modelled from the spec: `ClinVarEvidence` record of
`tumorboard/models/evidence.py` (missing from the sources) —
clinical_significance normalized to a single joined string, review_status,
list of condition names, last_evaluated, variation_id. -/
structure ClinVarEvidence where
  clinical_significance : Option String := none
  review_status : Json := .null
  conditions : List Json := []
  last_evaluated : Json := .null
  variation_id : Option String := none

/-- Modelled from the spec: `COSMICEvidence` record of
`tumorboard/models/evidence.py` (missing from the sources) — mutation_id,
primary_site, site_subtype, primary_histology, histology_subtype,
sample_count, mutation_somatic_status. -/
structure COSMICEvidence where
  mutation_id : Json := .null
  primary_site : Json := .null
  site_subtype : Json := .null
  primary_histology : Json := .null
  histology_subtype : Json := .null
  sample_count : Json := .null
  mutation_somatic_status : Json := .null

/-- Modelled from the spec: aggregate `Evidence` record of
`tumorboard/models/evidence.py` (missing from the sources) — identifiers and
HGVS strings all optional (here: `Json.null` when absent), the three evidence
lists never null, only empty, plus the retained raw payload. -/
structure Evidence where
  variant_id : Json := .null
  gene : String
  variant : String
  cosmic_id : Json := .null
  ncbi_gene_id : Json := .null
  dbsnp_id : Json := .null
  clinvar_id : Json := .null
  hgvs_genomic : Json := .null
  hgvs_protein : Json := .null
  hgvs_transcript : Json := .null
  civic : List CIViCEvidence := []
  clinvar : List ClinVarEvidence := []
  cosmic : List COSMICEvidence := []
  raw_data : Json := .null

/-!
## Source parsers (myvariant.py lines 143–285)
-/

/-- One nested CIViC evidence item (myvariant.py lines 163–184): every field
is read with `ev_item.get(...)`, which raises `AttributeError` when the
nested item is not a dict; the `drugs` comprehension iterates
`ev_item.get("drugs", [])`, raising `TypeError` when that value is not
iterable, and keeps `drug.get("name", "")` of the dict-shaped entries. -/
def civicNestedRecord (ev_item : Json) : Except PyExc CIViCEvidence :=
  match ev_item with
  | .obj kvs => do
      let drugsIter ← pyIter (dGet kvs "drugs" (.arr []))
      .ok {
        evidence_type := dGetN kvs "evidence_type"
        evidence_level := dGetN kvs "evidence_level"
        evidence_direction := dGetN kvs "evidence_direction"
        clinical_significance := dGetN kvs "clinical_significance"
        disease :=
          match dGetN kvs "disease" with
          | .obj d => dGetN d "name"
          | _ => .null
        drugs := drugsIter.filterMap (fun drug =>
          match drug with
          | .obj dd => some (dGet dd "name" (.str ""))
          | _ => none)
        description := dGetN kvs "description"
        source :=
          match dGetN kvs "source" with
          | .obj s => dGetN s "name"
          | _ => .null
        rating := dGetN kvs "rating" }
  | _ => .error (.attributeError "object has no attribute get")

/-- The flat-item branch of the CIViC parser (myvariant.py lines 186–199):
disease and source are taken from the item unchanged, drugs is the item's
`drugs` value when it is a list and `[]` otherwise. -/
def civicFlatRecord (kvs : List (String × Json)) : CIViCEvidence :=
  { evidence_type := dGetN kvs "evidence_type"
    evidence_level := dGetN kvs "evidence_level"
    evidence_direction := dGetN kvs "evidence_direction"
    clinical_significance := dGetN kvs "clinical_significance"
    disease := dGetN kvs "disease"
    drugs :=
      match dGetN kvs "drugs" with
      | .arr l => l
      | _ => []
    description := dGetN kvs "description"
    source := dGetN kvs "source"
    rating := dGetN kvs "rating" }

/-- The nested `for ev_item in item.get("evidence_items", [])` loop. -/
def civicNestedLoop : List Json → Except PyExc (List CIViCEvidence)
  | [] => .ok []
  | ev :: rest => do
      let r ← civicNestedRecord ev
      let tail ← civicNestedLoop rest
      .ok (r :: tail)

/-- One iteration of the CIViC parser's outer loop (myvariant.py lines
157–199): non-dict items are skipped, items carrying `evidence_items` emit
one record per nested item, other items emit one flat record. -/
def parseCivicItem (item : Json) : Except PyExc (List CIViCEvidence) :=
  match item with
  | .obj kvs =>
      if hasKey kvs "evidence_items" then do
        let evs ← pyIter (dGet kvs "evidence_items" (.arr []))
        civicNestedLoop evs
      else
        .ok [civicFlatRecord kvs]
  | _ => .ok []

/-- The CIViC parser's outer loop over normalized items. -/
def civicItemsLoop : List Json → Except PyExc (List CIViCEvidence)
  | [] => .ok []
  | item :: rest => do
      let here ← parseCivicItem item
      let tail ← civicItemsLoop rest
      .ok (here ++ tail)

/-- `MyVariantClient._parse_civic_evidence` (myvariant.py lines 143–201). -/
def parse_civic_evidence (civic_data : Json) : Except PyExc (List CIViCEvidence) :=
  civicItemsLoop (toItems civic_data)

/-- One ClinVar record (myvariant.py lines 219–249): list-shaped clinical
significance is joined with ", ", conditions are normalized from
object/list/scalar shapes, `variation_id` is stringified when the key
`"variation_id"` is present. -/
def clinVarItemRecord (kvs : List (String × Json)) : ClinVarEvidence :=
  let clinSig : Json :=
    match dGetN kvs "clinical_significance" with
    | .arr l => .str (String.intercalate ", " (l.map pyStr))
    | x => x
  let conditions : List Json :=
    if hasKey kvs "conditions" then
      match dGetN kvs "conditions" with
      | .arr l =>
          l.map (fun cond =>
            match cond with
            | .obj cd => dGet cd "name" (.str "")
            | _ => Json.str (pyStr cond))
      | .obj cd => [dGet cd "name" (.str "")]
      | _ => []
    else []
  { clinical_significance := if pyTruthy clinSig then some (pyStr clinSig) else none
    review_status := dGetN kvs "review_status"
    conditions := conditions
    last_evaluated := dGetN kvs "last_evaluated"
    variation_id :=
      if hasKey kvs "variation_id" then some (pyStr (dGetN kvs "variation_id")) else none }

/-- `MyVariantClient._parse_clinvar_evidence` (myvariant.py lines 203–251):
a total function — no statement in its body can raise. -/
def parse_clinvar_evidence (clinvar_data : Json) : List ClinVarEvidence :=
  (toItems clinvar_data).filterMap (fun item =>
    match item with
    | .obj kvs => some (clinVarItemRecord kvs)
    | _ => none)

/-- One COSMIC record (myvariant.py lines 273–283): flat field extraction. -/
def cosmicItemRecord (kvs : List (String × Json)) : COSMICEvidence :=
  { mutation_id := dGetN kvs "mutation_id"
    primary_site := dGetN kvs "primary_site"
    site_subtype := dGetN kvs "site_subtype"
    primary_histology := dGetN kvs "primary_histology"
    histology_subtype := dGetN kvs "histology_subtype"
    sample_count := dGetN kvs "sample_count"
    mutation_somatic_status := dGetN kvs "mutation_somatic_status" }

/-- `MyVariantClient._parse_cosmic_evidence` (myvariant.py lines 253–285):
a total function — no statement in its body can raise. -/
def parse_cosmic_evidence (cosmic_data : Json) : List COSMICEvidence :=
  (toItems cosmic_data).filterMap (fun item =>
    match item with
    | .obj kvs => some (cosmicItemRecord kvs)
    | _ => none)

/-!
## Transport layer: `MyVariantClient._query` (myvariant.py lines 82–123)

One HTTP attempt is abstracted as an `HttpxOutcome`; a run of `_query` is
driven by an oracle `attempts : Nat → HttpxOutcome` giving the outcome of each
successive attempt.  The `tenacity` decorator is modelled explicitly: it
re-invokes the body only when the exception escaping the body is one of the
configured httpx types, and stops after `stop_after_attempt(3)` attempts (the
literal 3 written in the decorator).  Backoff wait times are real-time
behavior and are not modelled.
-/

/-- Outcome of one underlying HTTP round trip, as seen by the body of
`_query`: a 2xx response with a JSON body, a non-2xx status (so that
`raise_for_status` raises `httpx.HTTPStatusError`), a timeout
(`httpx.TimeoutException`), or another transport error (`httpx.HTTPError`). -/
inductive HttpxOutcome where
  | success (data : Json)
  | statusError (code : Nat) (text : String)
  | timeout
  | transportError (msg : String)

/-- The `try` block of `_query` (myvariant.py lines 106–114), before the
`except` clauses: check the body for an `"error"` field and raise
`MyVariantAPIError` on it, otherwise return the body. -/
def queryAttemptRaw (o : HttpxOutcome) : Except PyExc Json :=
  match o with
  | .statusError code text => .error (.httpxStatusError code text)
  | .timeout => .error .httpxTimeout
  | .transportError m => .error (.httpxHTTPError m)
  | .success data => do
      let hasErr ← pyIn "error" data
      if hasErr then do
        let v ← pySub data "error"
        .error (.myVariantAPIError ("API error: " ++ pyStr v))
      else
        .ok data

/-- One full attempt of `_query`'s body including its `except` clauses
(myvariant.py lines 106–123): every exception raised inside the `try` block —
including the `MyVariantAPIError` raised for an error field, which the final
`except Exception` clause catches and re-wraps — leaves the body as a
`MyVariantAPIError`. -/
def queryAttempt (timeoutSecs : Int) (o : HttpxOutcome) : Except PyExc Json :=
  match queryAttemptRaw o with
  | .ok d => .ok d
  | .error (.httpxStatusError code text) =>
      .error (.myVariantAPIError ("HTTP error: " ++ toString code ++ " - " ++ text))
  | .error .httpxTimeout =>
      .error (.myVariantAPIError ("Request timed out after " ++ toString timeoutSecs ++ "s"))
  | .error (.httpxHTTPError m) =>
      .error (.myVariantAPIError ("HTTP error: " ++ m))
  | .error e =>
      .error (.myVariantAPIError ("Unexpected error: " ++ pyExcStr e))

/-- The decorator's retry condition:
`retry_if_exception_type((httpx.HTTPError, httpx.TimeoutException))`.
`HTTPStatusError` and transport errors are subclasses of `httpx.HTTPError`. -/
def retryHttpx : PyExc → Bool
  | .httpxStatusError _ _ => true
  | .httpxTimeout => true
  | .httpxHTTPError _ => true
  | _ => false

/-- The `tenacity` retry loop: run attempt `i`; when it raises, re-invoke it
only if the exception satisfies the retry condition and attempts remain. -/
def tenacityRun (f : Nat → Except PyExc Json) : Nat → Nat → Except PyExc Json
  | i, 0 => f i
  | i, 1 => f i
  | i, remaining + 2 =>
      match f i with
      | .ok d => .ok d
      | .error e =>
          if retryHttpx e then tenacityRun f (i + 1) (remaining + 1) else .error e

/-- Number of attempts the `tenacity` loop performs. -/
def tenacityCount (f : Nat → Except PyExc Json) : Nat → Nat → Nat
  | _, 0 => 1
  | _, 1 => 1
  | i, remaining + 2 =>
      match f i with
      | .ok _ => 1
      | .error e =>
          if retryHttpx e then 1 + tenacityCount f (i + 1) (remaining + 1) else 1

set_option linter.unusedVariables false in
/-- `MyVariantClient._query` under its decorator.  `maxRetries` mirrors the
`max_retries` constructor argument stored on the client; the decorator itself
is written with the literal `stop_after_attempt(3)` and never reads it. -/
def queryRun (timeoutSecs : Int) (maxRetries : Nat) (attempts : Nat → HttpxOutcome) :
    Except PyExc Json :=
  tenacityRun (fun i => queryAttempt timeoutSecs (attempts i)) 0 3

set_option linter.unusedVariables false in
/-- Number of attempts a run of `_query` performs. -/
def queryAttemptsUsed (timeoutSecs : Int) (maxRetries : Nat)
    (attempts : Nat → HttpxOutcome) : Nat :=
  tenacityCount (fun i => queryAttempt timeoutSecs (attempts i)) 0 3

/-!
## `MyVariantClient.fetch_evidence` (myvariant.py lines 287–461)

The strategy resolver issues queries through a transport oracle
`transport : String → Except PyExc Json` standing for `self._query` (which,
by the transport-layer model above, only ever raises `MyVariantAPIError`; the
oracle is kept general).
-/

/-- Strategy 1 query string: `"{gene} p.{variant}"`, the `p.` prepended only
when the variant does not already start with `p.` (myvariant.py line 318). -/
def strat1Query (gene variant : String) : String :=
  gene ++ " " ++ (if strStartsWith variant "p." then variant else "p." ++ variant)

/-- Strategy 2 query string: `"{gene}:{variant}"` (myvariant.py line 324). -/
def strat2Query (gene variant : String) : String :=
  gene ++ ":" ++ variant

/-- Strategy 3 query string: `"{gene} {variant}"` (myvariant.py line 329). -/
def strat3Query (gene variant : String) : String :=
  gene ++ " " ++ variant

/-- The query-strategy fallback (myvariant.py lines 314–330): issue strategy
1; while the current result's `total` (default 0) equals 0, fall through to
strategy 2 and then strategy 3; return the last query string issued together
with its result. -/
def resolveQuery (gene variant : String) (transport : String → Except PyExc Json) :
    Except PyExc (String × Json) := do
  let q₁ := strat1Query gene variant
  let r₁ ← transport q₁
  let t₁ ← pyGetAttrD r₁ "total" (.num 0)
  if pyEqZero t₁ then do
    let q₂ := strat2Query gene variant
    let r₂ ← transport q₂
    let t₂ ← pyGetAttrD r₂ "total" (.num 0)
    if pyEqZero t₂ then do
      let q₃ := strat3Query gene variant
      let r₃ ← transport q₃
      .ok (q₃, r₃)
    else
      .ok (q₂, r₂)
  else
    .ok (q₁, r₁)

/-- `cosmic_id` extraction (myvariant.py lines 368–374). -/
def extractCosmicId (hit_data : Json) : Except PyExc Json := do
  let has ← pyIn "cosmic" hit_data
  if has then do
    let cosmic_data ← pySub hit_data "cosmic"
    match cosmic_data with
    | .obj kvs => .ok (dGetN kvs "cosmic_id")
    | .arr (first :: _) =>
        match first with
        | .obj kvs => .ok (dGetN kvs "cosmic_id")
        | _ => .ok .null
    | _ => .ok .null
  else
    .ok .null

/-- `ncbi_gene_id` extraction (myvariant.py lines 376–383): prefer the
top-level `entrezgene`, else the `geneid` nested in the dbSNP sub-object. -/
def extractNcbiGeneId (hit_data : Json) : Except PyExc Json := do
  let hasEntrez ← pyIn "entrezgene" hit_data
  if hasEntrez then do
    let v ← pySub hit_data "entrezgene"
    .ok (.str (pyStr v))
  else do
    let hasDbsnp ← pyIn "dbsnp" hit_data
    if hasDbsnp then do
      let d ← pySub hit_data "dbsnp"
      match d with
      | .obj kvs =>
          match dGetN kvs "gene" with
          | .obj g =>
              if hasKey g "geneid" then .ok (.str (pyStr (dGetN g "geneid"))) else .ok .null
          | _ => .ok .null
      | _ => .ok .null
    else
      .ok .null

/-- `dbsnp_id` extraction (myvariant.py lines 385–391): take `rsid` from the
dbSNP sub-object when truthy and prepend `rs` unless already present. -/
def extractDbsnpId (hit_data : Json) : Except PyExc Json := do
  let has ← pyIn "dbsnp" hit_data
  if has then do
    let d ← pySub hit_data "dbsnp"
    match d with
    | .obj kvs =>
        let rsid := dGetN kvs "rsid"
        if pyTruthy rsid then
          let s := pyStr rsid
          .ok (.str (if strStartsWith s "rs" then s else "rs" ++ s))
        else
          .ok .null
    | _ => .ok .null
  else
    .ok .null

/-- `clinvar_id` extraction (myvariant.py lines 393–400): the reconciler
reads the key `"variant_id"` from the ClinVar sub-object (or its first list
element). -/
def extractClinvarId (hit_data : Json) : Except PyExc Json := do
  let has ← pyIn "clinvar" hit_data
  if has then do
    let clinvar_data ← pySub hit_data "clinvar"
    match clinvar_data with
    | .obj kvs =>
        .ok (if hasKey kvs "variant_id" then .str (pyStr (dGetN kvs "variant_id")) else .null)
    | .arr (first :: _) =>
        match first with
        | .obj kvs =>
            .ok (if hasKey kvs "variant_id" then .str (pyStr (dGetN kvs "variant_id")) else .null)
        | _ => .ok .null
    | _ => .ok .null
  else
    .ok .null

/-- HGVS accumulation state of the reconciler. -/
structure HgvsState where
  genomic : Json := .null
  protein : Json := .null
  transcript : Json := .null

/-- One step of the list-shaped HGVS scan (myvariant.py lines 424–431):
chromosome/accession prefix to genomic, `:p.` to protein, `:c.` to
transcript, each only when that slot is still falsy; non-strings skipped. -/
def hgvsScanStep (st : HgvsState) (hgvs : Json) : HgvsState :=
  match hgvs with
  | .str s =>
      if (strStartsWith s "chr" || strStartsWith s "NC_") && !pyTruthy st.genomic then
        { st with genomic := .str s }
      else if strContains s ":p." && !pyTruthy st.protein then
        { st with protein := .str s }
      else if strContains s ":c." && !pyTruthy st.transcript then
        { st with transcript := .str s }
      else
        st
  | _ => st

/-- HGVS extraction (myvariant.py lines 402–439): seed genomic from the
hit's `_id` when it has a `chr`/`NC_` prefix, then scan the `hgvs` field
(string shape classifies the single value — overwriting in the genomic case —
list shape folds `hgvsScanStep`), then fall back to the CIViC `name` field
for protein when still unset. -/
def extractHgvs (hit_data : Json) (query : String) : Except PyExc HgvsState := do
  let variantId ← pyGetAttrD hit_data "_id" (.str query)
  let genomic₀ : Json ←
    if pyTruthy variantId then
      match variantId with
      | .str s =>
          .ok (if strStartsWith s "chr" || strStartsWith s "NC_" then Json.str s else .null)
      | _ => .error (.attributeError "object has no attribute startswith")
    else
      .ok .null
  let st₀ : HgvsState := { genomic := genomic₀ }
  let hasHgvs ← pyIn "hgvs" hit_data
  let st₁ ←
    if hasHgvs then do
      let hgvs_data ← pySub hit_data "hgvs"
      match hgvs_data with
      | .str s =>
          .ok (if strStartsWith s "chr" || strStartsWith s "NC_" then
                 { st₀ with genomic := .str s }
               else if strContains s ":p." then
                 { st₀ with protein := .str s }
               else if strContains s ":c." then
                 { st₀ with transcript := .str s }
               else st₀)
      | .arr l => .ok (l.foldl hgvsScanStep st₀)
      | _ => .ok st₀
    else
      .ok st₀
  if !pyTruthy st₁.protein then do
    let hasCivic ← pyIn "civic" hit_data
    if hasCivic then do
      let civic_data ← pySub hit_data "civic"
      match civic_data with
      | .obj kvs =>
          if hasKey kvs "name" then do
            let name := dGetN kvs "name"
            let marked ← pyIn ":p." name
            if marked then .ok { st₁ with protein := name } else .ok st₁
          else
            .ok st₁
      | _ => .ok st₁
    else
      .ok st₁
  else
    .ok st₁

/-- Assembly of the `Evidence` record from the chosen strategy's result
(myvariant.py lines 332–456): the zero-hit branch returns the empty record;
otherwise the first hit is parsed by the three source parsers and the
identifier reconciler. -/
def assembleEvidence (gene variant query : String) (result : Json) :
    Except PyExc Evidence := do
  let hits ← pyGetAttrD result "hits" (.arr [])
  if !pyTruthy hits then
    .ok { variant_id := .str query, gene := gene, variant := variant, raw_data := result }
  else do
    let hit_data ← pyIndex0 hits
    let hasCivic ← pyIn "civic" hit_data
    let civicEv ←
      if hasCivic then do
        let v ← pySub hit_data "civic"
        parse_civic_evidence v
      else .ok []
    let hasClinvar ← pyIn "clinvar" hit_data
    let clinvarEv ←
      if hasClinvar then do
        let v ← pySub hit_data "clinvar"
        .ok (parse_clinvar_evidence v)
      else .ok []
    let hasCosmic ← pyIn "cosmic" hit_data
    let cosmicEv ←
      if hasCosmic then do
        let v ← pySub hit_data "cosmic"
        .ok (parse_cosmic_evidence v)
      else .ok []
    let cosmicId ← extractCosmicId hit_data
    let ncbiGeneId ← extractNcbiGeneId hit_data
    let dbsnpId ← extractDbsnpId hit_data
    let clinvarId ← extractClinvarId hit_data
    let hgvs ← extractHgvs hit_data query
    let variantId ← pyGetAttrD hit_data "_id" (.str query)
    .ok {
      variant_id := variantId
      gene := gene
      variant := variant
      cosmic_id := cosmicId
      ncbi_gene_id := ncbiGeneId
      dbsnp_id := dbsnpId
      clinvar_id := clinvarId
      hgvs_genomic := hgvs.genomic
      hgvs_protein := hgvs.protein
      hgvs_transcript := hgvs.transcript
      civic := civicEv
      clinvar := clinvarEv
      cosmic := cosmicEv
      raw_data := hit_data }

/-- The top-level exception policy of `fetch_evidence` (myvariant.py lines
458–461): `MyVariantAPIError` passes through unchanged, every other
exception is re-wrapped as a `MyVariantAPIError` carrying the original
message. -/
def myVariantWrap (x : Except PyExc Evidence) : Except PyExc Evidence :=
  match x with
  | .ok ev => .ok ev
  | .error (.myVariantAPIError m) => .error (.myVariantAPIError m)
  | .error e => .error (.myVariantAPIError ("Failed to parse evidence: " ++ pyExcStr e))

/-- `MyVariantClient.fetch_evidence` (myvariant.py lines 287–461), driven by
a transport oracle standing for `self._query`. -/
def fetch_evidence (gene variant : String) (transport : String → Except PyExc Json) :
    Except PyExc Evidence :=
  myVariantWrap (do
    let (query, result) ← resolveQuery gene variant transport
    assembleEvidence gene variant query result)

/-!
## Response predicates and proof helpers
-/

/-- A response whose total-hit count, read the way the resolver reads it
(`result.get("total", 0) == 0`), is zero. -/
def zeroTotal (r : Json) : Bool :=
  match r with
  | .obj kvs => pyEqZero (dGet kvs "total" (.num 0))
  | _ => false

/-- A response whose total-hit count is nonzero (read the same way). -/
def nonzeroTotal (r : Json) : Bool :=
  match r with
  | .obj kvs => !pyEqZero (dGet kvs "total" (.num 0))
  | _ => false

/-- A zero-hit response: total-hit count zero and the `hits` value (default
`[]`) falsy, i.e. empty or absent. -/
def zeroHitResponse (r : Json) : Bool :=
  match r with
  | .obj kvs => pyEqZero (dGet kvs "total" (.num 0)) && !pyTruthy (dGet kvs "hits" (.arr []))
  | _ => false

/-- Zero-hit response used by the C3 witness for the strategy-1 query. -/
def c3zeroResp : Json := Json.obj [("total", Json.num 0), ("hits", Json.arr [])]

/-- Single-hit response used by the C3 witness for the strategy-2 query. -/
def c3hitResp : Json :=
  Json.obj [("total", Json.num 1),
    ("hits", Json.arr [Json.obj [("_id", Json.str "chr7:g.140453136A>T")]])]

/-- Transport oracle of the C3 witness: a hit only for `"BRAF:V600E"`. -/
def c3transport : String → Except PyExc Json := fun q =>
  if q == "BRAF:V600E" then .ok c3hitResp else .ok c3zeroResp

/-- Response refuting C2 as stated: every strategy reports a zero total-hit
count, yet the response carries a hit with a COSMIC identifier. -/
def c2cexResp : Json :=
  Json.obj [("total", Json.num 0),
    ("hits", Json.arr [Json.obj [("cosmic", Json.obj [("cosmic_id", Json.str "COSM476")])]])]

/-- The all-zero-hit response of the C2 witness. -/
def c2zeroResp : Json := Json.obj [("total", Json.num 0), ("hits", Json.arr [])]

/-- ClinVar sub-object of the C10 witness. -/
def c10kvs : List (String × Json) := [("variation_id", Json.num 12345)]

/-- Hit refuting C6 as stated: its `_id` is genomic notation, and a
string-shaped `hgvs` field also carries genomic notation. -/
def c6cexResult : Json :=
  Json.obj [("hits", Json.arr [Json.obj [("_id", Json.str "chr1:g.100A>T"),
    ("hgvs", Json.str "chr2:g.200C>G")]])]

/-- Already-filled state of the C6 witness. -/
def c6state : HgvsState := { genomic := Json.str "chr7:g.140453136A>T" }

/-- A string-shaped JSON value. -/
def jsonIsStr : Json → Bool
  | .str _ => true
  | _ => false

/-- A value that is a name string or null. -/
def strOrNull : Json → Bool
  | .null => true
  | .str _ => true
  | _ => false

/-- A drugs entry whose stored value will be a string: non-dict entries are
skipped by the comprehension, dict entries must map `name` to a string (or
omit it, in which case the default `""` is stored). -/
def drugEntryOk : Json → Bool
  | .obj dd => jsonIsStr (dGet dd "name" (.str ""))
  | _ => true

/-- A nested CIViC evidence item whose `disease`/`source` name values are
strings or absent and whose iterable `drugs` entries are all `drugEntryOk`. -/
def evNamesOk (ev : Json) : Bool :=
  match ev with
  | .obj kvs =>
      (match dGetN kvs "disease" with
       | .obj d => strOrNull (dGetN d "name")
       | _ => true)
      && (match dGetN kvs "source" with
          | .obj s => strOrNull (dGetN s "name")
          | _ => true)
      && (match pyIter (dGet kvs "drugs" (.arr [])) with
          | .ok l => l.all drugEntryOk
          | .error _ => true)
  | _ => false

/-- Well-formed nested CIViC evidence item of the C9 witness. -/
def c9ev : Json :=
  Json.obj [("evidence_type", Json.str "Predictive"),
    ("disease", Json.obj [("name", Json.str "Melanoma")]),
    ("drugs", Json.arr [Json.obj [("name", Json.str "Vemurafenib")]]),
    ("source", Json.obj [("name", Json.str "PubMed")])]

/-- Record the nested branch emits for `c9ev`. -/
def c9rec : CIViCEvidence :=
  { evidence_type := Json.str "Predictive", disease := Json.str "Melanoma",
    drugs := [Json.str "Vemurafenib"], source := Json.str "PubMed" }

/-- Whether an embedded computation succeeded. -/
def exOk {α : Type} : Except PyExc α → Bool
  | .ok _ => true
  | .error _ => false

/-- A nested evidence item the nested branch can process without raising:
a dict whose `drugs` value (default `[]`) is iterable. -/
def evItemSafe (ev : Json) : Bool :=
  match ev with
  | .obj kvs =>
      match pyIter (dGet kvs "drugs" (.arr [])) with
      | .ok _ => true
      | .error _ => false
  | _ => false

/-- A CIViC item the parser can process without raising: non-dicts are
skipped, flat dicts always succeed, and a dict with `evidence_items` needs
that value iterable with every element `evItemSafe`. -/
def civicItemSafe (item : Json) : Bool :=
  match item with
  | .obj kvs =>
      if hasKey kvs "evidence_items" then
        match pyIter (dGet kvs "evidence_items" (.arr [])) with
        | .ok l => l.all evItemSafe
        | .error _ => false
      else true
  | _ => true

/-- A CIViC payload the parser can process without raising. -/
def civicSafe (civic_data : Json) : Bool :=
  (toItems civic_data).all civicItemSafe

/-- Input of the C4 witness: one nested item with an empty drugs list. -/
def c4safeInput : Json :=
  Json.obj [("evidence_items", Json.arr [Json.obj [("drugs", Json.arr [])]])]

/-- A zero-total response is a dict whose `total` read is zero. -/
theorem zeroTotalSpec (r : Json) (h : zeroTotal r = true) :
    ∃ kvs, r = Json.obj kvs ∧ pyEqZero (dGet kvs "total" (Json.num 0)) = true := by
  cases r <;> simp_all [zeroTotal]

/-- A nonzero-total response is a dict whose `total` read is nonzero. -/
theorem nonzeroTotalSpec (r : Json) (h : nonzeroTotal r = true) :
    ∃ kvs, r = Json.obj kvs ∧ pyEqZero (dGet kvs "total" (Json.num 0)) = false := by
  cases r <;> simp_all [nonzeroTotal]

/-- A zero-hit response is a dict with zero `total` and falsy `hits`. -/
theorem zeroHitResponseSpec (r : Json) (h : zeroHitResponse r = true) :
    ∃ kvs, r = Json.obj kvs ∧ pyEqZero (dGet kvs "total" (Json.num 0)) = true
      ∧ pyTruthy (dGet kvs "hits" (Json.arr [])) = false := by
  cases r <;> simp_all [zeroHitResponse]

@[simp] theorem exceptOkBind {α β ε : Type} (a : α) (f : α → Except ε β) :
    (Except.ok a >>= f) = f a := rfl

@[simp] theorem exceptErrorBind {α β ε : Type} (e : ε) (f : α → Except ε β) :
    ((Except.error e : Except ε α) >>= f) = .error e := rfl

/-!
## Claims
-/

/-- C1: the claim says a transport call that times out twice and succeeds on
the third attempt is retried and returns the successful result.  On the code
this fails: the body of `_query` converts every httpx exception into
`MyVariantAPIError` before the `tenacity` decorator can observe it, and the
decorator's retry condition matches only the httpx types, so the very first
timeout surfaces immediately as a `MyVariantAPIError` after exactly one
attempt — the success waiting at the third attempt is never reached. -/
theorem claim_c1_no_retry_on_timeout :
    queryRun 30 3
        (fun i => if i < 2 then .timeout else .success (Json.obj [("total", Json.num 1)]))
      = .error (.myVariantAPIError "Request timed out after 30s")
    ∧ queryAttemptsUsed 30 3
        (fun i => if i < 2 then .timeout else .success (Json.obj [("total", Json.num 1)]))
      = 1 := by
  exact ⟨rfl, rfl⟩

/-- C8: the claim says the maximum number of attempts equals the
`max_retries` value supplied at construction.  On the code this fails: the
decorator is written with the literal `stop_after_attempt(3)` and never reads
`self.max_retries`, so the run is independent of the configured value — and
because the body re-wraps every httpx exception first (see C1), a client
constructed with `max_retries = 5` still performs exactly one attempt when
every attempt times out. -/
theorem claim_c8_max_retries_ignored :
    (∀ (t : Int) (a : Nat → HttpxOutcome) (m m' : Nat), queryRun t m a = queryRun t m' a)
    ∧ queryRun 30 5 (fun _ => .timeout)
        = .error (.myVariantAPIError "Request timed out after 30s")
    ∧ queryAttemptsUsed 30 5 (fun _ => .timeout) = 1 := by
  exact ⟨fun _ _ _ _ => rfl, rfl, rfl⟩

/-- C3: strategy queries are issued in the fixed order
`"{gene} p.{variant}"`, `"{gene}:{variant}"`, `"{gene} {variant}"`, a later
strategy issued only when every earlier one returned a zero total-hit count,
stopping at the first nonzero total.  All three branches of the policy: a
nonzero strategy-1 response stops the resolver at strategy 1 (for every
oracle, so strategies 2 and 3 are never consulted); a zero strategy-1
response followed by a nonzero strategy-2 response stops at strategy 2 (the
oracle's strategy-3 behaviour is irrelevant), which is the claim's "in
particular" scenario; and zero responses from strategies 1 and 2 make the
resolver use strategy 3's query and response unconditionally.  In each
branch the final evidence is assembled from the stopping strategy's query
string and response. -/
theorem claim_c3_strategy_fallback (gene variant : String)
    (transport : String → Except PyExc Json) :
    (∀ r₁, transport (strat1Query gene variant) = .ok r₁ → nonzeroTotal r₁ = true →
      resolveQuery gene variant transport = .ok (strat1Query gene variant, r₁)
      ∧ fetch_evidence gene variant transport
          = myVariantWrap (assembleEvidence gene variant (strat1Query gene variant) r₁))
    ∧ (∀ r₁ r₂, transport (strat1Query gene variant) = .ok r₁ → zeroTotal r₁ = true →
        transport (strat2Query gene variant) = .ok r₂ → nonzeroTotal r₂ = true →
        resolveQuery gene variant transport = .ok (strat2Query gene variant, r₂)
        ∧ fetch_evidence gene variant transport
            = myVariantWrap (assembleEvidence gene variant (strat2Query gene variant) r₂))
    ∧ (∀ r₁ r₂ r₃, transport (strat1Query gene variant) = .ok r₁ → zeroTotal r₁ = true →
        transport (strat2Query gene variant) = .ok r₂ → zeroTotal r₂ = true →
        transport (strat3Query gene variant) = .ok r₃ →
        resolveQuery gene variant transport = .ok (strat3Query gene variant, r₃)
        ∧ fetch_evidence gene variant transport
            = myVariantWrap (assembleEvidence gene variant (strat3Query gene variant) r₃)) := by
  refine ⟨?_, ?_, ?_⟩
  · intro r₁ h₁ hnz
    obtain ⟨kvs₁, rfl, hnz'⟩ := nonzeroTotalSpec r₁ hnz
    have hres : resolveQuery gene variant transport
        = .ok (strat1Query gene variant, .obj kvs₁) := by
      simp [resolveQuery, h₁, pyGetAttrD, hnz']
    exact ⟨hres, by simp [fetch_evidence, hres]⟩
  · intro r₁ r₂ h₁ hz h₂ hnz
    obtain ⟨kvs₁, rfl, hz'⟩ := zeroTotalSpec r₁ hz
    obtain ⟨kvs₂, rfl, hnz'⟩ := nonzeroTotalSpec r₂ hnz
    have hres : resolveQuery gene variant transport
        = .ok (strat2Query gene variant, .obj kvs₂) := by
      simp [resolveQuery, h₁, h₂, pyGetAttrD, hz', hnz']
    exact ⟨hres, by simp [fetch_evidence, hres]⟩
  · intro r₁ r₂ r₃ h₁ hz₁ h₂ hz₂ h₃
    obtain ⟨kvs₁, rfl, hz₁'⟩ := zeroTotalSpec r₁ hz₁
    obtain ⟨kvs₂, rfl, hz₂'⟩ := zeroTotalSpec r₂ hz₂
    have hres : resolveQuery gene variant transport
        = .ok (strat3Query gene variant, r₃) := by
      simp [resolveQuery, h₁, h₂, h₃, pyGetAttrD, hz₁', hz₂']
    exact ⟨hres, by simp [fetch_evidence, hres]⟩

/-- Witness for C3 at gene `BRAF`, variant `V600E`, exercising every branch
of the policy: an oracle hitting already at strategy 1, the mixed oracle
hitting only at strategy 2, and an oracle with zero hits throughout. -/
theorem claim_c3_witness :
    nonzeroTotal c3hitResp = true
    ∧ resolveQuery "BRAF" "V600E" (fun _ => .ok c3hitResp)
        = .ok (strat1Query "BRAF" "V600E", c3hitResp)
    ∧ c3transport (strat1Query "BRAF" "V600E") = .ok c3zeroResp
    ∧ zeroTotal c3zeroResp = true
    ∧ c3transport (strat2Query "BRAF" "V600E") = .ok c3hitResp
    ∧ resolveQuery "BRAF" "V600E" c3transport = .ok (strat2Query "BRAF" "V600E", c3hitResp)
    ∧ resolveQuery "BRAF" "V600E" (fun _ => .ok c3zeroResp)
        = .ok (strat3Query "BRAF" "V600E", c3zeroResp) := by
  refine ⟨rfl, ?_, rfl, rfl, rfl, ?_, ?_⟩
  · exact ((claim_c3_strategy_fallback "BRAF" "V600E" (fun _ => .ok c3hitResp)).1
      c3hitResp rfl rfl).1
  · exact ((claim_c3_strategy_fallback "BRAF" "V600E" c3transport).2.1
      c3zeroResp c3hitResp rfl rfl rfl rfl).1
  · exact ((claim_c3_strategy_fallback "BRAF" "V600E" (fun _ => .ok c3zeroResp)).2.2
      c3zeroResp c3zeroResp c3zeroResp rfl rfl rfl rfl rfl).1

/-- C2 counterexample: with every strategy returning a zero total-hit count
(`zeroTotal c2cexResp = true`, and all three strategies receive this same
response), `fetch_evidence` nevertheless returns an `Evidence` whose
`cosmic_id` is the string `COSM476`, not null — the zero-hit branch is
guarded by the `hits` list being falsy, not by the `total` field the claim
speaks about. -/
theorem claim_c2_counterexample :
    zeroTotal c2cexResp = true
    ∧ (fetch_evidence "BRAF" "V600E" (fun _ => .ok c2cexResp)).map Evidence.cosmic_id
        = .ok (Json.str "COSM476")
    ∧ Json.str "COSM476" ≠ Json.null :=
  ⟨rfl, rfl, fun h => Json.noConfusion h⟩

/-- C2 (amended: the three strategies return zero-hit responses, i.e. zero
total-hit count and an empty-or-absent `hits` list): `fetch_evidence`
returns, without error, the `Evidence` whose `variant_id` is the last query
string, whose `raw_data` is the final response, and whose remaining fields
are the defaults — empty civic/clinvar/cosmic lists and null for every
identifier and HGVS field. -/
theorem claim_c2_zero_hits_empty_evidence (gene variant : String)
    (transport : String → Except PyExc Json) (r₁ r₂ r₃ : Json)
    (h₁ : transport (strat1Query gene variant) = .ok r₁)
    (hz₁ : zeroTotal r₁ = true)
    (h₂ : transport (strat2Query gene variant) = .ok r₂)
    (hz₂ : zeroTotal r₂ = true)
    (h₃ : transport (strat3Query gene variant) = .ok r₃)
    (hz₃ : zeroHitResponse r₃ = true) :
    fetch_evidence gene variant transport
      = .ok { variant_id := .str (strat3Query gene variant), gene := gene,
              variant := variant, raw_data := r₃ } := by
  obtain ⟨kvs₁, rfl, hz₁'⟩ := zeroTotalSpec r₁ hz₁
  obtain ⟨kvs₂, rfl, hz₂'⟩ := zeroTotalSpec r₂ hz₂
  obtain ⟨kvs₃, rfl, hz₃', hh₃⟩ := zeroHitResponseSpec r₃ hz₃
  simp [fetch_evidence, resolveQuery, h₁, h₂, h₃, pyGetAttrD, hz₁', hz₂',
    assembleEvidence, hh₃, myVariantWrap]

/-- Witness for C2 at gene `BRAF`, variant `V600E`, every strategy answering
with a zero-hit response. -/
theorem claim_c2_witness :
    zeroTotal c2zeroResp = true
    ∧ zeroHitResponse c2zeroResp = true
    ∧ fetch_evidence "BRAF" "V600E" (fun _ => .ok c2zeroResp)
        = .ok { variant_id := .str (strat3Query "BRAF" "V600E"), gene := "BRAF",
                variant := "V600E", raw_data := c2zeroResp } :=
  ⟨rfl, rfl,
    claim_c2_zero_hits_empty_evidence "BRAF" "V600E" (fun _ => .ok c2zeroResp)
      c2zeroResp c2zeroResp c2zeroResp rfl rfl rfl rfl rfl rfl⟩

/-- Every result of the `tenacity` loop is the result of some attempt. -/
theorem tenacityRunRange (f : Nat → Except PyExc Json) :
    ∀ n i, ∃ j, tenacityRun f i n = f j := by
  intro n
  induction n using Nat.strong_induction_on with
  | _ n ih =>
    intro i
    match n with
    | 0 => exact ⟨i, rfl⟩
    | 1 => exact ⟨i, rfl⟩
    | m + 2 =>
      cases hf : f i with
      | ok d => exact ⟨i, by simp [tenacityRun, hf]⟩
      | error e =>
        cases hr : retryHttpx e with
        | true =>
          obtain ⟨j, hj⟩ := ih (m + 1) (by omega) (i + 1)
          exact ⟨j, by simp [tenacityRun, hf, hr, hj]⟩
        | false => exact ⟨i, by simp [tenacityRun, hf, hr]⟩

/-- Every attempt of `_query` either succeeds or raises `MyVariantAPIError`:
each `except` clause of the body converts its exception. -/
theorem queryAttemptShape (t : Int) (o : HttpxOutcome) :
    (∃ d, queryAttempt t o = .ok d)
    ∨ (∃ m, queryAttempt t o = .error (.myVariantAPIError m)) := by
  unfold queryAttempt
  cases hq : queryAttemptRaw o with
  | ok d => exact Or.inl ⟨d, rfl⟩
  | error e => cases e <;> exact Or.inr ⟨_, rfl⟩

/-- The top-level wrap only lets `MyVariantAPIError` out. -/
theorem myVariantWrapShape (x : Except PyExc Evidence) :
    (∃ ev, myVariantWrap x = .ok ev)
    ∨ (∃ m, myVariantWrap x = .error (.myVariantAPIError m)) := by
  cases x with
  | ok ev => exact Or.inl ⟨ev, rfl⟩
  | error e => cases e <;> exact Or.inr ⟨_, rfl⟩

/-- C7: for every gene, variant and transport oracle (including oracles that
raise arbitrary modelled exceptions and respond with malformed payloads),
`fetch_evidence` either returns an `Evidence` or fails with the single
client-error kind `MyVariantAPIError` — unexpected internal failures are
re-wrapped with the original message by `myVariantWrap` — and likewise every
run of `_query` either returns data or fails with `MyVariantAPIError`. -/
theorem claim_c7_single_error_kind :
    (∀ (gene variant : String) (transport : String → Except PyExc Json),
      (∃ ev, fetch_evidence gene variant transport = .ok ev)
      ∨ (∃ m, fetch_evidence gene variant transport = .error (.myVariantAPIError m)))
    ∧ (∀ (t : Int) (mr : Nat) (attempts : Nat → HttpxOutcome),
      (∃ d, queryRun t mr attempts = .ok d)
      ∨ (∃ m, queryRun t mr attempts = .error (.myVariantAPIError m))) := by
  constructor
  · intro gene variant transport
    exact myVariantWrapShape _
  · intro t mr attempts
    obtain ⟨j, hj⟩ := tenacityRunRange (fun i => queryAttempt t (attempts i)) 3 0
    rw [queryRun, hj]
    exact queryAttemptShape t (attempts j)

/-- C10: for every hit whose ClinVar sub-object carries the key
`"variation_id"` but not `"variant_id"`, `fetch_evidence` leaves
`Evidence.clinvar_id` null while the parsed `ClinVarEvidence.variation_id` is
populated: the identifier reconciler (myvariant.py line 397) reads only the
key `"variant_id"`, the ClinVar parser (line 247) only `"variation_id"`. -/
theorem claim_c10_clinvar_key_mismatch (kvs : List (String × Json))
    (hv : hasKey kvs "variation_id" = true)
    (hnv : hasKey kvs "variant_id" = false) :
    fetch_evidence "BRAF" "V600E"
        (fun _ => .ok (Json.obj [("total", Json.num 1),
          ("hits", Json.arr [Json.obj [("clinvar", Json.obj kvs)]])]))
      = .ok { variant_id := .str "BRAF p.V600E", gene := "BRAF", variant := "V600E",
              clinvar_id := .null, clinvar := [clinVarItemRecord kvs],
              raw_data := Json.obj [("clinvar", Json.obj kvs)] }
    ∧ (clinVarItemRecord kvs).variation_id = some (pyStr (dGetN kvs "variation_id")) := by
  constructor
  · have hbase : fetch_evidence "BRAF" "V600E"
        (fun _ => .ok (Json.obj [("total", Json.num 1),
          ("hits", Json.arr [Json.obj [("clinvar", Json.obj kvs)]])]))
      = .ok { variant_id := .str "BRAF p.V600E", gene := "BRAF", variant := "V600E",
              clinvar_id := if hasKey kvs "variant_id" then
                  Json.str (pyStr (dGetN kvs "variant_id")) else Json.null,
              clinvar := [clinVarItemRecord kvs],
              raw_data := Json.obj [("clinvar", Json.obj kvs)] } := rfl
    rw [hnv] at hbase
    simpa using hbase
  · simp [clinVarItemRecord, hv]

/-- Witness for C10: a hit whose ClinVar sub-object holds only
`variation_id = 12345`. -/
theorem claim_c10_witness :
    hasKey c10kvs "variation_id" = true
    ∧ hasKey c10kvs "variant_id" = false
    ∧ (clinVarItemRecord c10kvs).variation_id = some "12345"
    ∧ fetch_evidence "BRAF" "V600E"
        (fun _ => .ok (Json.obj [("total", Json.num 1),
          ("hits", Json.arr [Json.obj [("clinvar", Json.obj c10kvs)]])]))
      = .ok { variant_id := .str "BRAF p.V600E", gene := "BRAF", variant := "V600E",
              clinvar_id := .null, clinvar := [clinVarItemRecord c10kvs],
              raw_data := Json.obj [("clinvar", Json.obj c10kvs)] } :=
  ⟨rfl, rfl, (claim_c10_clinvar_key_mismatch c10kvs rfl rfl).2,
    (claim_c10_clinvar_key_mismatch c10kvs rfl rfl).1⟩

/-- C6 counterexample: the `_id` fills the genomic slot first, yet the later
string-shaped `hgvs` match for the already-filled genomic category is not
ignored — the string branch (myvariant.py lines 414–417) has no
`not hgvs_genomic` guard and overwrites the slot with `chr2:g.200C>G`. -/
theorem claim_c6_counterexample :
    (assembleEvidence "BRAF" "V600E" "q" c6cexResult).map Evidence.hgvs_genomic
      = .ok (Json.str "chr2:g.200C>G")
    ∧ Json.str "chr2:g.200C>G" ≠ Json.str "chr1:g.100A>T" :=
  ⟨rfl, by simp⟩

/-- C6 (amended: first-match-wins with already-filled categories ignored
holds for the list-shaped scan; a string-shaped `hgvs` value with a
chromosome/accession prefix instead overwrites the identifier-derived
genomic slot, as the counterexample shows): the claim's example list
`[chr7:g.140453136A>T, NM_004333.4:c.1799T>A, NP_004324.2:p.V600E]` is
classified as genomic, transcript and protein respectively, each exactly
once; and every step of the list scan preserves an already-filled (truthy)
genomic, protein or transcript slot. -/
theorem claim_c6_hgvs_classification :
    (assembleEvidence "BRAF" "V600E" "q" (Json.obj [("hits", Json.arr [Json.obj [("hgvs",
        Json.arr [Json.str "chr7:g.140453136A>T", Json.str "NM_004333.4:c.1799T>A",
          Json.str "NP_004324.2:p.V600E"])]])])).map
        (fun ev => (ev.hgvs_genomic, ev.hgvs_protein, ev.hgvs_transcript))
      = .ok (Json.str "chr7:g.140453136A>T", Json.str "NP_004324.2:p.V600E",
          Json.str "NM_004333.4:c.1799T>A")
    ∧ (∀ (st : HgvsState) (h : Json),
        (pyTruthy st.genomic = true → (hgvsScanStep st h).genomic = st.genomic)
        ∧ (pyTruthy st.protein = true → (hgvsScanStep st h).protein = st.protein)
        ∧ (pyTruthy st.transcript = true → (hgvsScanStep st h).transcript = st.transcript)) := by
  refine ⟨rfl, fun st h => ⟨?_, ?_, ?_⟩⟩ <;>
    intro ht <;> cases h <;> simp [hgvsScanStep, ht] <;> (repeat' split) <;> simp_all

/-- Witness for C6: a second chromosome-prefixed string does not displace the
already-filled genomic slot during the list scan. -/
theorem claim_c6_witness :
    pyTruthy c6state.genomic = true
    ∧ (hgvsScanStep c6state (Json.str "chrX:g.5A>T")).genomic = c6state.genomic :=
  ⟨rfl, (claim_c6_hgvs_classification.2 c6state (Json.str "chrX:g.5A>T")).1 rfl⟩

/-- C5 counterexample: a bare object whose `evidence_items` list is empty is
one of the two shapes the claim quantifies over, yet the CIViC parser
produces zero records for it, not a one-element list. -/
theorem claim_c5_counterexample :
    (parse_civic_evidence (Json.obj [("evidence_items", Json.arr [])])).map List.length
      = .ok 0
    ∧ (0 : Nat) ≠ 1 :=
  ⟨rfl, by decide⟩

/-- C5 (amended: the bare-object / one-element-list equivalence holds for all
three parsers; the result is a one-element list for the ClinVar and COSMIC
parsers always, and for the CIViC parser exactly when the object carries no
`evidence_items` key — an object with `evidence_items` yields one record per
nested item instead). -/
theorem claim_c5_shape_normalization :
    (∀ kvs, parse_civic_evidence (Json.obj kvs)
        = parse_civic_evidence (Json.arr [Json.obj kvs]))
    ∧ (∀ kvs, parse_clinvar_evidence (Json.obj kvs)
        = parse_clinvar_evidence (Json.arr [Json.obj kvs]))
    ∧ (∀ kvs, parse_cosmic_evidence (Json.obj kvs)
        = parse_cosmic_evidence (Json.arr [Json.obj kvs]))
    ∧ (∀ kvs, parse_clinvar_evidence (Json.obj kvs) = [clinVarItemRecord kvs])
    ∧ (∀ kvs, parse_cosmic_evidence (Json.obj kvs) = [cosmicItemRecord kvs])
    ∧ (∀ kvs, hasKey kvs "evidence_items" = false →
        parse_civic_evidence (Json.obj kvs) = .ok [civicFlatRecord kvs]) := by
  refine ⟨fun kvs => rfl, fun kvs => rfl, fun kvs => rfl, fun kvs => rfl, fun kvs => rfl,
    fun kvs hk => ?_⟩
  simp [parse_civic_evidence, toItems, civicItemsLoop, parseCivicItem, hk]

/-- Witness for C5 at the empty object. -/
theorem claim_c5_witness :
    hasKey ([] : List (String × Json)) "evidence_items" = false
    ∧ parse_civic_evidence (Json.obj []) = .ok [civicFlatRecord []] :=
  ⟨rfl, claim_c5_shape_normalization.2.2.2.2.2 [] rfl⟩

/-- The drugs comprehension keeps only string values when every entry is
`drugEntryOk`. -/
theorem drugsFilterAllStr (l : List Json) (h : l.all drugEntryOk = true) :
    (l.filterMap (fun drug =>
      match drug with
      | .obj dd => some (dGet dd "name" (.str ""))
      | _ => none)).all jsonIsStr = true := by
  induction l with
  | nil => rfl
  | cons x xs ih =>
    rw [List.all_cons, Bool.and_eq_true] at h
    cases x <;> simp_all [List.filterMap_cons, drugEntryOk]

/-- C9 counterexample: a flat CIViC item (no `evidence_items`) whose
`disease` value is a dict is passed through unchanged by the flat branch
(myvariant.py line 193) — the resulting record's `disease` is the raw
sub-object, not a name string or null. -/
theorem claim_c9_counterexample :
    (parse_civic_evidence (Json.obj [("disease", Json.obj [("name", Json.str "Melanoma")])])).map
        (fun l => l.map CIViCEvidence.disease)
      = .ok [Json.obj [("name", Json.str "Melanoma")]]
    ∧ strOrNull (Json.obj [("name", Json.str "Melanoma")]) = false :=
  ⟨rfl, rfl⟩

/-- C9 (amended: the name-string-or-null guarantee holds for the nested
`evidence_items` branch whenever the unwrapped name values are themselves
strings or absent; the flat branch passes the item's `disease` and `source`
values through unchanged — raw sub-objects included, as the counterexample
shows): every record the nested branch emits from a `evNamesOk` item has a
string-or-null disease and source and all-string drugs; the flat branch is
the identity on the `disease` and `source` values. -/
theorem claim_c9_civic_field_unwrapping :
    (∀ (ev : Json) (rec : CIViCEvidence), evNamesOk ev = true →
        civicNestedRecord ev = .ok rec →
        strOrNull rec.disease = true ∧ strOrNull rec.source = true
          ∧ rec.drugs.all jsonIsStr = true)
    ∧ (∀ kvs, (civicFlatRecord kvs).disease = dGetN kvs "disease"
        ∧ (civicFlatRecord kvs).source = dGetN kvs "source") := by
  constructor
  · intro ev rec hok hrec
    cases ev with
    | null => simp [evNamesOk] at hok
    | bool b => simp [evNamesOk] at hok
    | num n => simp [evNamesOk] at hok
    | str s => simp [evNamesOk] at hok
    | arr l => simp [evNamesOk] at hok
    | obj kvs =>
      rw [evNamesOk, Bool.and_eq_true, Bool.and_eq_true] at hok
      obtain ⟨⟨hd, hs⟩, hdr⟩ := hok
      cases hit : pyIter (dGet kvs "drugs" (.arr [])) with
      | error e => simp [civicNestedRecord, hit] at hrec
      | ok l =>
        simp only [civicNestedRecord, hit, exceptOkBind] at hrec
        rw [Except.ok.injEq] at hrec
        subst hrec
        refine ⟨?_, ?_, ?_⟩
        · cases hdd : dGetN kvs "disease" <;> simp_all [strOrNull]
        · cases hss : dGetN kvs "source" <;> simp_all [strOrNull]
        · rw [hit] at hdr
          exact drugsFilterAllStr l hdr
  · exact fun kvs => ⟨rfl, rfl⟩

/-- Witness for C9 at a fully populated nested evidence item. -/
theorem claim_c9_witness :
    evNamesOk c9ev = true
    ∧ civicNestedRecord c9ev = .ok c9rec
    ∧ (strOrNull c9rec.disease = true ∧ strOrNull c9rec.source = true
        ∧ c9rec.drugs.all jsonIsStr = true) :=
  ⟨rfl, rfl, claim_c9_civic_field_unwrapping.1 c9ev c9rec rfl rfl⟩

/-- A safe nested item yields a record. -/
theorem civicNestedRecordSafe (ev : Json) (h : evItemSafe ev = true) :
    exOk (civicNestedRecord ev) = true := by
  cases ev with
  | null => simp [evItemSafe] at h
  | bool b => simp [evItemSafe] at h
  | num n => simp [evItemSafe] at h
  | str s => simp [evItemSafe] at h
  | arr l => simp [evItemSafe] at h
  | obj kvs =>
    rw [evItemSafe] at h
    cases hit : pyIter (dGet kvs "drugs" (.arr [])) with
    | ok l => simp [civicNestedRecord, hit, exOk]
    | error e => rw [hit] at h; simp at h

/-- A list of safe nested items yields a record list. -/
theorem civicNestedLoopSafe (l : List Json) (h : l.all evItemSafe = true) :
    exOk (civicNestedLoop l) = true := by
  induction l with
  | nil => rfl
  | cons ev rest ih =>
    rw [List.all_cons, Bool.and_eq_true] at h
    have h₁ := civicNestedRecordSafe ev h.1
    cases hr : civicNestedRecord ev with
    | error e => rw [hr] at h₁; simp [exOk] at h₁
    | ok r =>
      have h₂ := ih h.2
      cases ht : civicNestedLoop rest with
      | error e => rw [ht] at h₂; simp [exOk] at h₂
      | ok t => simp [civicNestedLoop, hr, ht, exOk]

/-- A safe item is processed without raising. -/
theorem parseCivicItemSafe (item : Json) (h : civicItemSafe item = true) :
    exOk (parseCivicItem item) = true := by
  cases item with
  | null => rfl
  | bool b => rfl
  | num n => rfl
  | str s => rfl
  | arr l => rfl
  | obj kvs =>
    rw [civicItemSafe] at h
    cases hk : hasKey kvs "evidence_items" with
    | false => simp [parseCivicItem, hk, exOk]
    | true =>
      rw [hk] at h
      simp only [if_true] at h
      cases hit : pyIter (dGet kvs "evidence_items" (.arr [])) with
      | error e => rw [hit] at h; simp at h
      | ok l =>
        rw [hit] at h
        have := civicNestedLoopSafe l h
        simp [parseCivicItem, hk, hit, this]

/-- A list of safe items is processed without raising. -/
theorem civicItemsLoopSafe (l : List Json) (h : l.all civicItemSafe = true) :
    exOk (civicItemsLoop l) = true := by
  induction l with
  | nil => rfl
  | cons item rest ih =>
    rw [List.all_cons, Bool.and_eq_true] at h
    have h₁ := parseCivicItemSafe item h.1
    cases hr : parseCivicItem item with
    | error e => rw [hr] at h₁; simp [exOk] at h₁
    | ok r =>
      have h₂ := ih h.2
      cases ht : civicItemsLoop rest with
      | error e => rw [ht] at h₂; simp [exOk] at h₂
      | ok t => simp [civicItemsLoop, hr, ht, exOk]

/-- C4 counterexample: a CIViC payload whose `evidence_items` list holds a
non-dict entry makes the parser raise `AttributeError` (myvariant.py line
166: `ev_item.get(...)` on an int) — the claim's "never raises for any
JSON-like input" fails.  The ClinVar and COSMIC parsers are embedded as
total functions (`parse_clinvar_evidence`, `parse_cosmic_evidence`): no
statement in their bodies can raise. -/
theorem claim_c4_counterexample :
    parse_civic_evidence (Json.obj [("evidence_items", Json.arr [Json.num 1])])
      = .error (.attributeError "object has no attribute get") := rfl

/-- C4 (amended: the ClinVar and COSMIC parsers never raise for any input —
they are total in the embedding — and the CIViC parser never raises provided
every item's `evidence_items` value, when present, is iterable with dict
entries whose `drugs` values are iterable; outside that envelope the CIViC
parser raises, as the counterexample shows, and only the top-level
`fetch_evidence` handler converts the exception to the client error). -/
theorem claim_c4_parsers_no_raise (civic_data : Json)
    (h : civicSafe civic_data = true) :
    exOk (parse_civic_evidence civic_data) = true :=
  civicItemsLoopSafe (toItems civic_data) h

/-- Witness for C4 at a safe nested payload. -/
theorem claim_c4_witness :
    civicSafe c4safeInput = true ∧ exOk (parse_civic_evidence c4safeInput) = true :=
  ⟨rfl, claim_c4_parsers_no_raise c4safeInput rfl⟩
